import Mathlib

/-!
Verification development for the Reranker repository: a shallow embedding of
the batch evaluation and scoring engine (utils/ragas_metrics.py and
utils/batch_evaluator.py), with theorems settling the behavioural claims.

External collaborators (the Azure LLM judge, the sentence embedder, the
answer generator, the retrieval backends, and the scipy Student-t continuous
computation) are modelled as explicit function parameters: the program under
verification only sees their output strings or numbers. Python floats are
modelled as exact rationals, with NaN and infinity represented explicitly
where the code can produce them. Python exceptions raised by library calls
are modelled with Except.
-/

/-! ### Python string primitives -/

/-- Model of Python str.lower (per-character lowering). -/
def pyLower (s : String) : String := ⟨s.data.map Char.toLower⟩

/-- Model of Python str.upper (per-character uppering). -/
def pyUpper (s : String) : String := ⟨s.data.map Char.toUpper⟩

/-- Model of Python str.strip: drop whitespace from both ends. -/
def pyStrip (s : String) : String :=
  ⟨((s.data.dropWhile Char.isWhitespace).reverse.dropWhile Char.isWhitespace).reverse⟩

/-- Containment of one character list in another, matching the Python
substring operator: an empty pattern is contained in everything. -/
def listContains (pat : List Char) : List Char → Bool
  | [] => pat.isEmpty
  | c :: t => pat.isPrefixOf (c :: t) || listContains pat t

/-- Model of the Python expression pat in s on strings. -/
def pyIn (pat s : String) : Bool := listContains pat.data s.data

/-- Split a character list at every occurrence of a separator character,
keeping empty pieces, as Python str.split(sep) does. -/
def splitOnChar (sep : Char) : List Char → List (List Char)
  | [] => [[]]
  | c :: t =>
    if c = sep then [] :: splitOnChar sep t
    else
      match splitOnChar sep t with
      | [] => [[c]]
      | h :: r => (c :: h) :: r

/-- Model of Python text.split(chr(10)): split at newlines, keeping empties. -/
def pyLines (s : String) : List String := (splitOnChar '\n' s.data).map (fun l => ⟨l⟩)

/-- Split a character list at every character satisfying a predicate,
keeping empty pieces. -/
def splitWhen (p : Char → Bool) : List Char → List (List Char)
  | [] => [[]]
  | c :: t =>
    if p c then [] :: splitWhen p t
    else
      match splitWhen p t with
      | [] => [[c]]
      | h :: r => (c :: h) :: r

/-- Model of Python str.split() with no argument: split on whitespace runs
and discard empty pieces. -/
def pySplit (s : String) : List String :=
  ((splitWhen Char.isWhitespace s.data).filter (fun l => l ≠ [])).map (fun l => ⟨l⟩)

/-- Model of the Python slice s[:n]. -/
def pyTake (n : ℕ) (s : String) : String := ⟨s.data.take n⟩

/-- Whether the first character of the raw string is a digit, as in the
Python guard c[0].isdigit() evaluated on the unstripped line. -/
def firstIsDigit (s : String) : Bool :=
  match s.data with
  | [] => false
  | c :: _ => c.isDigit

/-- Model of re.sub applied with the anchored pattern digits, dot, optional
whitespace: remove a leading claim numbering when the full pattern matches. -/
def stripNumbering (s : String) : String :=
  let ds := s.data.takeWhile Char.isDigit
  let rest := s.data.dropWhile Char.isDigit
  if ds ≠ [] then
    match rest with
    | '.' :: r => ⟨r.dropWhile Char.isWhitespace⟩
    | _ => s
  else s

/-! ### External collaborators

The RAGASMetrics class delegates to an Azure chat completion endpoint
(the _call_llm helper, returning a plain string, empty on failure) and to a
sentence-transformer embedder used only through pairwise cosine similarity.
Both are modelled as opaque-to-the-program function parameters. -/

/-- External judge and embedder used by the metrics engine: llm models
RAGASMetrics._call_llm, and cos models the cosine similarity between the
embeddings of two texts. -/
structure Oracle where
  llm : String → String
  cos : String → String → ℚ

/-! ### RAGASMetrics.calculate_faithfulness -/

/-- Prompt built by calculate_faithfulness for claim extraction. -/
def claimsPrompt (answer : String) : String :=
  "Extract all factual claims from this answer. \nList each claim on a new line, numbered.\n\nAnswer: "
    ++ answer ++ "\n\nClaims:"

/-- Prompt built by calculate_faithfulness for the per-claim verification,
with the context truncated to 3000 characters. -/
def verifyPrompt (ctxText claimText : String) : String :=
  "Based on the following context, can this claim be verified as true?\nAnswer only \x27YES\x27 or \x27NO\x27.\n\nContext: "
    ++ pyTake 3000 ctxText ++ "\n\nClaim: " ++ claimText ++ "\n\nAnswer:"

/-- Claim lines parsed from the judge output: each newline-separated piece
that is nonempty after stripping and whose first raw character is a digit,
kept in stripped form. -/
def extractedClaims (o : Oracle) (answer : String) : List String :=
  (pyLines (o.llm (claimsPrompt answer))).filterMap (fun c =>
    if pyStrip c ≠ "" ∧ firstIsDigit c then some (pyStrip c) else none)

/-- Whether a single claim is judged entailed by the context text: the
numbering prefix is removed, the judge is called, and the stripped, uppered
reply must contain YES. -/
def claimSupported (o : Oracle) (ctxText claim : String) : Bool :=
  pyIn "YES" (pyUpper (pyStrip (o.llm (verifyPrompt ctxText (stripNumbering claim)))))

/-- Model of RAGASMetrics.calculate_faithfulness: extracted claims judged
supported over total extracted claims; 1.0 when no claims are extracted. -/
def calculate_faithfulness (o : Oracle) (answer : String) (contexts : List String) : ℚ :=
  let claims := extractedClaims o answer
  if claims = [] then 1
  else
    let ctxText := String.intercalate "\n" contexts
    let supported : ℕ := claims.foldl
      (fun acc claim => if claimSupported o ctxText claim then acc + 1 else acc) 0
    (supported : ℚ) / (claims.length : ℚ)

/-! ### RAGASMetrics.calculate_answer_relevancy -/

/-- Prompt built by calculate_answer_relevancy for question generation. -/
def relevancyPrompt (answer : String) : String :=
  "Based on this answer, generate 3 questions that this answer would address.\nList each question on a new line.\n\nAnswer: "
    ++ answer ++ "\n\nQuestions:"

/-- Generated questions parsed from the judge output: nonempty stripped
newline-separated pieces. -/
def generatedQuestions (o : Oracle) (answer : String) : List String :=
  (pyLines (o.llm (relevancyPrompt answer))).filterMap (fun q =>
    if pyStrip q ≠ "" then some (pyStrip q) else none)

/-- Model of RAGASMetrics.calculate_answer_relevancy: mean cosine similarity
between the original question and the generated questions; 0.5 when the
judge returns no questions. -/
def calculate_answer_relevancy (o : Oracle) (question answer : String) : ℚ :=
  let qs := generatedQuestions o answer
  if qs = [] then 1/2
  else ((qs.map (fun g => o.cos question g)).sum) / (qs.length : ℚ)

/-! ### RAGASMetrics.calculate_context_precision -/

/-- Prompt built by calculate_context_precision per context, with the
context truncated to 500 characters. -/
def precisionPrompt (question context : String) : String :=
  "Is this context relevant for answering the question?\nAnswer only \x27YES\x27 or \x27NO\x27.\n\nQuestion: "
    ++ question ++ "\nContext: " ++ pyTake 500 context ++ "\n\nAnswer:"

/-- One-based positions among the first k contexts judged relevant. -/
def relevantPositions (o : Oracle) (question : String) (contexts : List String) (k : ℕ) : List ℕ :=
  (contexts.take k).enum.filterMap (fun p =>
    if pyIn "YES" (pyUpper (pyStrip (o.llm (precisionPrompt question p.2))))
    then some (p.1 + 1) else none)

/-- Model of RAGASMetrics.calculate_context_precision: position-weighted
precision at k, capped at 1.0, and 0.0 when nothing is judged relevant. -/
def calculate_context_precision (o : Oracle) (question : String) (contexts : List String)
    (k : ℕ := 5) : ℚ :=
  let rel := relevantPositions o question contexts k
  if rel = [] then 0
  else min ((rel.map (fun pos : ℕ => (1 : ℚ) / (pos : ℚ))).sum / (k : ℚ)) 1

/-! ### RAGASMetrics.calculate_context_recall -/

/-- First five whitespace-tokenized words of the lowercased ground truth. -/
def keyTerms (ground_truth : String) : List String :=
  (pySplit (pyLower ground_truth)).take 5

/-- Number of key terms literally present in the lowercased space-joined
contexts. -/
def foundTerms (ground_truth : String) (contexts : List String) : ℕ :=
  ((keyTerms ground_truth).filter
    (fun t => pyIn t (pyLower (String.intercalate " " contexts)))).length

/-- Model of RAGASMetrics.calculate_context_recall: keyword-overlap score,
0.0 for an empty context list, and 0.0 when no key term is found. -/
def calculate_context_recall (ground_truth : String) (contexts : List String) : ℚ :=
  if contexts = [] then 0
  else
    let ft := foundTerms ground_truth contexts
    if ft > 0 then (ft : ℚ) / ((keyTerms ground_truth).length : ℚ)
    else 0

/-! ### RAGASMetrics.calculate_answer_correctness -/

/-- Prompt built by the extract_facts inner helper. -/
def factsPrompt (text : String) : String :=
  "Extract all factual statements from this text.\nList each fact on a new line.\n\nText: "
    ++ text ++ "\n\nFacts:"

/-- Facts parsed from the judge output: nonempty stripped newline-separated
pieces. -/
def extractFacts (o : Oracle) (text : String) : List String :=
  (pyLines (o.llm (factsPrompt text))).filterMap (fun f =>
    if pyStrip f ≠ "" then some (pyStrip f) else none)

/-- F1-like overlap between the two extracted fact lists, treated as sets of
exact strings, with the degenerate guards of the source. -/
def f1FromFacts (answer_facts truth_facts : List String) : ℚ :=
  if answer_facts = [] ∧ truth_facts = [] then 1
  else if answer_facts = [] ∨ truth_facts = [] then 0
  else
    let aset := answer_facts.dedup
    let tset := truth_facts.dedup
    let tp := (aset.filter (fun f => f ∈ tset)).length
    let fp := (aset.filter (fun f => f ∉ tset)).length
    let fn := (tset.filter (fun f => f ∉ aset)).length
    let prec := if tp + fp > 0 then (tp : ℚ) / ((tp + fp : ℕ) : ℚ) else 0
    let rcl := if tp + fn > 0 then (tp : ℚ) / ((tp + fn : ℕ) : ℚ) else 0
    if prec + rcl > 0 then 2 * prec * rcl / (prec + rcl) else 0

/-- Ground-truth content words: lowercased whitespace tokens longer than
three characters. -/
def keyTermsGT (ground_truth : String) : List String :=
  (pySplit (pyLower ground_truth)).filter (fun w => w.length > 3)

/-- Fraction of ground-truth content words literally present in the
lowercased answer; 0 when there are no content words. -/
def coverageOf (answer ground_truth : String) : ℚ :=
  let kt := keyTermsGT ground_truth
  let found := (kt.filter (fun t => pyIn t (pyLower answer))).length
  if kt = [] then 0 else (found : ℚ) / (kt.length : ℚ)

/-- Result dictionary of calculate_answer_correctness. -/
structure CorrectnessResult where
  f1_score : ℚ
  semantic_similarity : ℚ
  standard_correctness : ℚ
  advanced_correctness : ℚ
  all_facts_present : Bool
deriving DecidableEq, Repr

/-- Model of RAGASMetrics.calculate_answer_correctness: fact-set F1 blended
with embedding similarity, with the coverage-based floor for the advanced
variant. -/
def calculate_answer_correctness (o : Oracle) (answer ground_truth : String) :
    CorrectnessResult :=
  let f1 := f1FromFacts (extractFacts o answer) (extractFacts o ground_truth)
  let sem := o.cos answer ground_truth
  let coverage := coverageOf answer ground_truth
  { f1_score := f1
    semantic_similarity := sem
    standard_correctness := f1 * (1/2) + sem * (1/2)
    advanced_correctness :=
      if coverage ≥ 8/10 then max (8/10) (f1 * (3/10) + sem * (7/10))
      else f1 * (1/2) + sem * (1/2)
    all_facts_present := coverage ≥ 8/10 }

/-! ### BatchEvaluator.is_refusal_answer -/

/-- English refusal patterns from BatchEvaluator.is_refusal_answer. -/
def englishPatterns : List String :=
  ["do not provide information",
   "do not contain information",
   "cannot answer",
   "can\x27t answer",
   "unable to answer",
   "no information found",
   "could not find",
   "not found in the documents",
   "documents don\x27t contain",
   "if you could provide more context"]

/-- German refusal patterns from BatchEvaluator.is_refusal_answer. -/
def germanPatterns : List String :=
  ["keine information",
   "nicht gefunden",
   "kann nicht beantworten",
   "keine antwort",
   "nicht in den dokumenten",
   "dokumente enthalten nicht",
   "nicht verfügbar",
   "keine angaben",
   "wenn sie mehr kontext"]

/-- Model of BatchEvaluator.is_refusal_answer: case-insensitive substring
match against the bilingual pattern list. -/
def is_refusal_answer (answer : String) : Bool :=
  (englishPatterns ++ germanPatterns).any (fun p => pyIn p (pyLower answer))

/-! ### Retrieval results and the single-question evaluation -/

/-- One entry of the chunks value returned by a backend: either a
dict-shaped passage, of which the code reads only the content value
(chunk.get with default empty string), or a non-dict entry. -/
inductive Chunk where
  | dict (content : String)
  | nondict
deriving DecidableEq, Repr

/-- One system entry of the dict returned by fetch_both_systems. The chunks
field is none when the value stored under the chunks key is not a list, and
some list otherwise (a missing key defaults to the empty list). -/
structure SystemResult where
  error : Option String := none
  chunks : Option (List Chunk) := some []
  time_ms : ℚ := 0
deriving DecidableEq, Repr

/-- Python truthiness of the error value: set and nonempty. -/
def hasError (r : SystemResult) : Bool :=
  match r.error with
  | some e => e ≠ ""
  | none => false

/-- Contexts extracted from a chunks list: the content of each dict-shaped
entry, in order (empty contents included). -/
def chunkContents (chunks : List Chunk) : List String :=
  chunks.filterMap (fun c =>
    match c with
    | .dict content => some content
    | .nondict => none)

/-- Pair of system results returned by fetch_both_systems for one query. -/
structure FetchResults where
  original : SystemResult
  reranked : SystemResult
deriving DecidableEq, Repr

/-- Metrics dict attached per system by evaluate_single_question. -/
structure MetricSet where
  faithfulness : ℚ
  answer_relevancy : ℚ
  context_precision : ℚ
  context_recall : ℚ
  answer_correctness : CorrectnessResult
  response_time_ms : ℚ
  answer : String
  refused_to_answer : Bool
deriving DecidableEq, Repr

/-- Environment of one batch run: the judge and embedder oracle, the answer
generator, the retrieval call for a query, and the continuous part of the
scipy paired t computation (used only away from the degenerate cases). -/
structure Env extends Oracle where
  answerGen : String → List Chunk → String
  fetch : String → FetchResults
  ttestCont : List ℚ → List ℚ → ℚ × ℚ

/-- Per-system body of the loop in evaluate_single_question: the guards that
skip a system (error set, chunks not a list, empty chunks, no dict-shaped
entries) yield none, otherwise the metrics dict is built. -/
def processSystem (env : Env) (question ground_truth : String) (r : SystemResult) :
    Option MetricSet :=
  if hasError r then none
  else
    match r.chunks with
    | none => none
    | some chunks =>
      if chunks = [] then none
      else
        let contexts := chunkContents chunks
        if contexts = [] then none
        else
          let answer := env.answerGen question chunks
          some
            { faithfulness := calculate_faithfulness env.toOracle answer contexts
              answer_relevancy := calculate_answer_relevancy env.toOracle question answer
              context_precision := calculate_context_precision env.toOracle question contexts
              context_recall := calculate_context_recall ground_truth contexts
              answer_correctness := calculate_answer_correctness env.toOracle answer ground_truth
              response_time_ms := r.time_ms
              answer := answer
              refused_to_answer := is_refusal_answer answer }

/-- Input question dict with the fields read by evaluate_single_question. -/
structure QuestionData where
  id : String
  question : String
  ground_truth : String
deriving DecidableEq, Repr

/-- Evaluation dict returned by evaluate_single_question: identifying fields
always present, per-system metrics optional. -/
structure EvaluationRecord where
  question_id : String
  question : String
  ground_truth : String
  original_metrics : Option MetricSet
  reranked_metrics : Option MetricSet
deriving DecidableEq, Repr

/-- Model of BatchEvaluator.evaluate_single_question. -/
def evaluate_single_question (env : Env) (qd : QuestionData) : EvaluationRecord :=
  let results := env.fetch qd.question
  { question_id := qd.id
    question := qd.question
    ground_truth := qd.ground_truth
    original_metrics := processSystem env qd.question qd.ground_truth results.original
    reranked_metrics := processSystem env qd.question qd.ground_truth results.reranked }

/-- Model of the record-collection loop of BatchEvaluator.batch_evaluate:
one evaluation per input question, in order. -/
def batch_evaluate (env : Env) (questions : List QuestionData) : List EvaluationRecord :=
  questions.map (evaluate_single_question env)

/-- The condition under which evaluate_single_question omits the metrics of
one system, read off from its guards: a truthy error, a non-list chunks
value, an empty chunks list, or a chunks list with no dict-shaped entry. -/
def omitsVariant (r : SystemResult) : Bool :=
  hasError r ||
    match r.chunks with
    | none => true
    | some chunks => chunks.isEmpty || (chunkContents chunks).isEmpty

/-! ### BatchEvaluator._create_results_dataframe -/

/-- One row of the results dataframe. -/
structure Row where
  question_id : String
  system : String
  faithfulness : ℚ
  answer_relevancy : ℚ
  context_precision : ℚ
  context_recall : ℚ
  answer_correctness_standard : ℚ
  answer_correctness_advanced : ℚ
  semantic_similarity : ℚ
  response_time_ms : ℚ
  refused_to_answer : Bool
deriving DecidableEq, Repr

/-- Row built for one (question, system) pair carrying metrics. -/
def mkRow (questionId systemName : String) (m : MetricSet) : Row :=
  { question_id := questionId
    system := systemName
    faithfulness := m.faithfulness
    answer_relevancy := m.answer_relevancy
    context_precision := m.context_precision
    context_recall := m.context_recall
    answer_correctness_standard := m.answer_correctness.standard_correctness
    answer_correctness_advanced := m.answer_correctness.advanced_correctness
    semantic_similarity := m.answer_correctness.semantic_similarity
    response_time_ms := m.response_time_ms
    refused_to_answer := m.refused_to_answer }

/-- Rows contributed by one record: an original row if original metrics are
present, then a reranked row if reranked metrics are present. -/
def rowsForRecord (r : EvaluationRecord) : List Row :=
  (match r.original_metrics with
   | some m => [mkRow r.question_id "original" m]
   | none => []) ++
  (match r.reranked_metrics with
   | some m => [mkRow r.question_id "reranked" m]
   | none => [])

/-- Model of BatchEvaluator._create_results_dataframe: the flat list of rows
(an empty list standing for the column-less empty DataFrame). -/
def create_results_dataframe (records : List EvaluationRecord) : List Row :=
  (records.map rowsForRecord).flatten

/-- Model of the pandas selection df[df[system] == name]. -/
def selectSystem (rows : List Row) (name : String) : List Row :=
  rows.filter (fun r => r.system == name)

/-! ### BatchEvaluator.generate_report

Python float values reaching the report are exact rationals except where the
code manufactures NaN (mean of an empty selection, a zero-variance paired t
test) or infinity (the improvement special case, a zero-denominator t
statistic); those are represented explicitly. -/

/-- Float value as it appears in the report: a rational number, NaN, or a
signed infinity. -/
inductive PyVal where
  | num (q : ℚ)
  | nan
  | inf
  | neginf
deriving DecidableEq, Repr

/-- Model of the pandas column mean: NaN over an empty selection, otherwise
the exact arithmetic mean. -/
def colMean (vals : List ℚ) : PyVal :=
  if vals = [] then .nan else .num (vals.sum / (vals.length : ℚ))

/-- Per-system Series of numeric-column means produced by the mean call with
numeric_only (the boolean refusal column participates as 0/1). -/
structure MeanSet where
  faithfulness : PyVal
  answer_relevancy : PyVal
  context_precision : PyVal
  context_recall : PyVal
  answer_correctness_standard : PyVal
  answer_correctness_advanced : PyVal
  semantic_similarity : PyVal
  response_time_ms : PyVal
  refused_to_answer : PyVal
deriving DecidableEq, Repr

/-- Column means over a row selection. -/
def meansOf (rows : List Row) : MeanSet :=
  { faithfulness := colMean (rows.map (fun r => r.faithfulness))
    answer_relevancy := colMean (rows.map (fun r => r.answer_relevancy))
    context_precision := colMean (rows.map (fun r => r.context_precision))
    context_recall := colMean (rows.map (fun r => r.context_recall))
    answer_correctness_standard := colMean (rows.map (fun r => r.answer_correctness_standard))
    answer_correctness_advanced := colMean (rows.map (fun r => r.answer_correctness_advanced))
    semantic_similarity := colMean (rows.map (fun r => r.semantic_similarity))
    response_time_ms := colMean (rows.map (fun r => r.response_time_ms))
    refused_to_answer := colMean (rows.map (fun r => if r.refused_to_answer then (1 : ℚ) else 0)) }

/-- Python equality comparison of a float value with zero: false for NaN and
the infinities. -/
def pyEqZero : PyVal → Bool
  | .num q => q == 0
  | _ => false

/-- The arithmetic branch of the improvement computation. NaN propagates
through the float arithmetic; the mean values feeding this are never
infinite. -/
def pyImpFormula : PyVal → PyVal → PyVal
  | .num o, .num r => .num ((r - o) / o * 100)
  | _, _ => .nan

/-- Model of the improvement computation of generate_report for one metric:
0 when the original mean compares equal to 0 and the reranked mean does too,
the infinity literal when only the original mean compares equal to 0, and
the percentage formula otherwise. -/
def pyImprovement (ov rv : PyVal) : PyVal :=
  if pyEqZero ov then
    if pyEqZero rv then .num 0 else .inf
  else pyImpFormula ov rv

/-- Improvements dict: every numeric column except response_time_ms. -/
structure ImpSet where
  faithfulness : PyVal
  answer_relevancy : PyVal
  context_precision : PyVal
  context_recall : PyVal
  answer_correctness_standard : PyVal
  answer_correctness_advanced : PyVal
  semantic_similarity : PyVal
  refused_to_answer : PyVal
deriving DecidableEq, Repr

/-- Improvements computed from the two mean Series. -/
def impsOf (o r : MeanSet) : ImpSet :=
  { faithfulness := pyImprovement o.faithfulness r.faithfulness
    answer_relevancy := pyImprovement o.answer_relevancy r.answer_relevancy
    context_precision := pyImprovement o.context_precision r.context_precision
    context_recall := pyImprovement o.context_recall r.context_recall
    answer_correctness_standard :=
      pyImprovement o.answer_correctness_standard r.answer_correctness_standard
    answer_correctness_advanced :=
      pyImprovement o.answer_correctness_advanced r.answer_correctness_advanced
    semantic_similarity := pyImprovement o.semantic_similarity r.semantic_similarity
    refused_to_answer := pyImprovement o.refused_to_answer r.refused_to_answer }

/-- Python comparison of a float value with a rational threshold: false for
NaN and positive infinity, true for negative infinity. -/
def pyLtQ : PyVal → ℚ → Bool
  | .num q, c => q < c
  | .nan, _ => false
  | .inf, _ => false
  | .neginf, _ => true

/-- Paired differences of the two value arrays. -/
def ttestDiffs (a b : List ℚ) : List ℚ := List.zipWith (fun x y => x - y) a b

/-- Mean of the paired differences. -/
def ttestMean (d : List ℚ) : ℚ := d.sum / (d.length : ℚ)

/-- Sample variance of the paired differences (one delta degree of
freedom). -/
def ttestVar (d : List ℚ) : ℚ :=
  (d.map (fun x => (x - ttestMean d) ^ 2)).sum / ((d.length : ℚ) - 1)

/-- Model of scipy.stats.ttest_rel on the two value arrays: raises on
unequal lengths; NaN statistic and p-value when fewer than two pairs or a
zero-variance, zero-mean difference; a signed-infinite statistic with
p-value 0 when the variance is zero but the mean difference is not; and
otherwise the continuous Student-t computation, supplied as a parameter
because its value is irrational. -/
def ttest_rel (cont : List ℚ → List ℚ → ℚ × ℚ) (a b : List ℚ) :
    Except String (PyVal × PyVal) :=
  if a.length = b.length then
    if (ttestDiffs a b).length ≤ 1 then .ok (.nan, .nan)
    else if ttestVar (ttestDiffs a b) = 0 then
      if ttestMean (ttestDiffs a b) = 0 then .ok (.nan, .nan)
      else if ttestMean (ttestDiffs a b) > 0 then .ok (.inf, .num 0)
      else .ok (.neginf, .num 0)
    else .ok (.num (cont a b).1, .num (cont a b).2)
  else .error "unequal length arrays"

/-- Significance dict entry for one metric. -/
structure SigEntry where
  t_stat : PyVal
  p_value : PyVal
  significant : Bool
deriving DecidableEq, Repr

/-- One significance entry: the paired t test on (reranked, original) value
arrays, with the significance flag comparing the p-value against 0.05. -/
def sigEntry (cont : List ℚ → List ℚ → ℚ × ℚ) (rer orig : List ℚ) :
    Except String SigEntry := do
  let tp ← ttest_rel cont rer orig
  .ok { t_stat := tp.1, p_value := tp.2, significant := pyLtQ tp.2 (1/20) }

/-- Significance dict over the four core metrics. -/
structure SigSet where
  faithfulness : SigEntry
  answer_relevancy : SigEntry
  context_precision : SigEntry
  context_recall : SigEntry
deriving DecidableEq, Repr

/-- Refusal statistics block of the report. -/
structure MissStats where
  original_misses : ℕ
  reranked_misses : ℕ
  original_miss_rate : ℚ
  reranked_miss_rate : ℚ
  miss_reduction : ℤ
deriving DecidableEq, Repr

/-- Report dict assembled by generate_report. -/
structure Report where
  original_metrics : MeanSet
  reranked_metrics : MeanSet
  improvements : ImpSet
  statistical_significance : SigSet
  total_questions : ℕ
  miss_statistics : MissStats
deriving DecidableEq, Repr

/-- Model of BatchEvaluator.generate_report. An empty row list stands for
the column-less empty DataFrame produced by _create_results_dataframe, on
which the very first column selection raises a KeyError; the paired t test
raises a ValueError when the two per-system selections have different
lengths. Both raises surface as Except.error. -/
def generate_report (cont : List ℚ → List ℚ → ℚ × ℚ) (rows : List Row) :
    Except String Report :=
  if rows = [] then .error "KeyError: system"
  else do
    let orig := selectSystem rows "original"
    let rer := selectSystem rows "reranked"
    let om := meansOf orig
    let rm := meansOf rer
    let sf ← sigEntry cont (rer.map (fun r => r.faithfulness))
      (orig.map (fun r => r.faithfulness))
    let sar ← sigEntry cont (rer.map (fun r => r.answer_relevancy))
      (orig.map (fun r => r.answer_relevancy))
    let scp ← sigEntry cont (rer.map (fun r => r.context_precision))
      (orig.map (fun r => r.context_precision))
    let scr ← sigEntry cont (rer.map (fun r => r.context_recall))
      (orig.map (fun r => r.context_recall))
    let tq := rows.length / 2
    let omiss := (orig.filter (fun r => r.refused_to_answer)).length
    let rmiss := (rer.filter (fun r => r.refused_to_answer)).length
    .ok
      { original_metrics := om
        reranked_metrics := rm
        improvements := impsOf om rm
        statistical_significance :=
          { faithfulness := sf
            answer_relevancy := sar
            context_precision := scp
            context_recall := scr }
        total_questions := tq
        miss_statistics :=
          { original_misses := omiss
            reranked_misses := rmiss
            original_miss_rate := if tq > 0 then (omiss : ℚ) / (tq : ℚ) * 100 else 0
            reranked_miss_rate := if tq > 0 then (rmiss : ℚ) / (tq : ℚ) * 100 else 0
            miss_reduction := (omiss : ℤ) - (rmiss : ℤ) } }

/-! ### Concrete fixtures used by witnesses and counterexamples -/

/-- Oracle whose judge stays silent and whose embedder reports similarity
one half for every pair of texts. -/
def oHalf : Oracle := { llm := fun _ => "", cos := fun _ _ => 1/2 }

/-- Oracle whose judge emits one reconstructed question and whose embedder
reports cosine similarity minus one, the opposite-direction extreme of the
mathematical cosine range. -/
def oNeg : Oracle := { llm := fun _ => "Q", cos := fun _ _ => -1 }

/-- Environment in which the original system returns one dict-shaped chunk
with nonempty content while the reranked system returns one dict-shaped
chunk whose content is the empty string. -/
def envEmptyContent : Env :=
  { llm := fun _ => ""
    cos := fun _ _ => 0
    answerGen := fun _ _ => "generated answer"
    fetch := fun _ =>
      { original := { chunks := some [.dict "some passage"] }
        reranked := { chunks := some [.dict ""] } }
    ttestCont := fun _ _ => (0, 0) }

/-- Concrete input question. -/
def qdA : QuestionData := { id := "q1", question := "q", ground_truth := "g" }

/-- Metric set whose four namesake scores and correctness values all equal
the given rational. -/
def msOf (q : ℚ) : MetricSet :=
  { faithfulness := q
    answer_relevancy := q
    context_precision := q
    context_recall := q
    answer_correctness :=
      { f1_score := q
        semantic_similarity := q
        standard_correctness := q
        advanced_correctness := q
        all_facts_present := false }
    response_time_ms := 0
    answer := ""
    refused_to_answer := false }

/-- Three records of which only the first and third carry reranked metrics,
with reranked faithfulness values two fifths and three fifths. -/
def recs3 : List EvaluationRecord :=
  [{ question_id := "1", question := "a", ground_truth := "g",
     original_metrics := some (msOf (1/2)), reranked_metrics := some (msOf (2/5)) },
   { question_id := "2", question := "b", ground_truth := "g",
     original_metrics := some (msOf (1/2)), reranked_metrics := none },
   { question_id := "3", question := "c", ground_truth := "g",
     original_metrics := some (msOf (1/2)), reranked_metrics := some (msOf (3/5)) }]

/-- Six rows for three questions whose two per-system score vectors are
identical. -/
def rows6 : List Row :=
  [mkRow "1" "original" (msOf (1/2)), mkRow "1" "reranked" (msOf (1/2)),
   mkRow "2" "original" (msOf (1/2)), mkRow "2" "reranked" (msOf (1/2)),
   mkRow "3" "original" (msOf (1/2)), mkRow "3" "reranked" (msOf (1/2))]

/-- Two rows, one per system, for a single question. -/
def rowsPair : List Row :=
  [mkRow "1" "original" (msOf (1/2)), mkRow "1" "reranked" (msOf (2/5))]

/-- One original row with no reranked counterpart. -/
def rowsOddOne : List Row := [mkRow "1" "original" (msOf (1/2))]

/-- Trivial stand-in for the continuous part of the t computation. -/
def defaultCont : List ℚ → List ℚ → ℚ × ℚ := fun _ _ => (0, 0)

/-- Rows of the reranked system as they come from the records that carry
reranked metrics, used to phrase skip-missing aggregation. -/
def rerankedRows (records : List EvaluationRecord) : List Row :=
  records.filterMap (fun r => r.reranked_metrics.map (mkRow r.question_id "reranked"))


/-! ### Helper lemmas -/

/-- Folding an increment over a list counts the elements satisfying the
predicate, as in the supported-claims loop. -/
theorem foldl_count_eq_countP {α : Type} (p : α → Bool) (l : List α) (n : ℕ) :
    l.foldl (fun acc c => if p c then acc + 1 else acc) n = n + l.countP p := by
  induction l generalizing n with
  | nil => simp
  | cons a t ih =>
    by_cases h : p a
    · simp [List.countP_cons, h, ih]
      omega
    · simp [List.countP_cons, h, ih]

/-- The per-system guard structure of evaluate_single_question yields none
exactly under the omission condition. -/
theorem processSystem_eq_none_iff (env : Env) (question ground_truth : String)
    (r : SystemResult) :
    processSystem env question ground_truth r = none ↔ omitsVariant r = true := by
  unfold processSystem omitsVariant
  cases hE : hasError r
  · cases hc : r.chunks with
    | none => simp
    | some chunks =>
      by_cases h1 : chunks = []
      · simp [h1]
      · by_cases h2 : chunkContents chunks = [] <;>
          simp [h1, h2, List.isEmpty_iff]
  · simp

/-! ### Claim theorems -/

/-- C10: for every environment and every input question dict, the record
returned by evaluate_single_question carries the question id, question text
and ground truth of its input, whatever the two retrieval results were. -/
theorem c10_record_identity (env : Env) (qd : QuestionData) :
    (evaluate_single_question env qd).question_id = qd.id ∧
    (evaluate_single_question env qd).question = qd.question ∧
    (evaluate_single_question env qd).ground_truth = qd.ground_truth := by
  refine ⟨rfl, rfl, rfl⟩

/-- C9: context recall equals the number of the first five whitespace
tokens of the lowercased ground truth found in the concatenated lowercased
contexts, divided by the number of those tokens, and is 0 for an empty
context list (the found count is 0 there, and a ground truth without
tokens makes both sides 0 under rational division). -/
theorem c9_context_recall (ground_truth : String) (contexts : List String) :
    calculate_context_recall ground_truth contexts =
      (if contexts = [] then 0
       else (foundTerms ground_truth contexts : ℚ) /
         ((keyTerms ground_truth).length : ℚ)) := by
  unfold calculate_context_recall
  by_cases hc : contexts = []
  · simp [hc]
  · simp only [hc, if_false]
    by_cases hf : foundTerms ground_truth contexts > 0
    · simp [hf]
    · have h0 : foundTerms ground_truth contexts = 0 := by omega
      simp [h0]

/-- C7: faithfulness equals the number of extracted claims judged entailed
by the newline-concatenated contexts divided by the number of extracted
claims, and equals exactly 1 when no claims are extracted. -/
theorem c7_faithfulness (o : Oracle) (answer : String) (contexts : List String) :
    calculate_faithfulness o answer contexts =
      (if extractedClaims o answer = [] then 1
       else ((extractedClaims o answer).countP
           (claimSupported o (String.intercalate "\n" contexts)) : ℚ) /
         ((extractedClaims o answer).length : ℚ)) := by
  unfold calculate_faithfulness
  by_cases h : extractedClaims o answer = []
  · simp [h]
  · simp only [h, if_false]
    rw [foldl_count_eq_countP]
    simp

/-- C4: the improvement computation of generate_report returns the
percentage formula when the original mean is nonzero, exactly 0 when both
means are zero, and the infinity flag, with no division error, when only
the original mean is zero. -/
theorem c4_improvement (o r : ℚ) :
    (o ≠ 0 → pyImprovement (.num o) (.num r) = .num ((r - o) / o * 100)) ∧
    pyImprovement (.num 0) (.num 0) = .num 0 ∧
    (r ≠ 0 → pyImprovement (.num 0) (.num r) = .inf) := by
  refine ⟨fun ho => ?_, by simp [pyImprovement, pyEqZero], fun hr => ?_⟩
  · simp [pyImprovement, pyEqZero, pyImpFormula, ho]
  · simp [pyImprovement, pyEqZero, hr]

/-- Witness for C4 at the concrete means 2 and 5 and at the zero cases. -/
theorem c4_improvement_witness :
    pyImprovement (.num 2) (.num 5) = .num ((5 - 2) / 2 * 100) ∧
    pyImprovement (.num 0) (.num 0) = .num 0 ∧
    pyImprovement (.num 0) (.num 5) = .inf :=
  ⟨(c4_improvement 2 5).1 (by norm_num), (c4_improvement 2 5).2.1,
   (c4_improvement 2 5).2.2 (by norm_num)⟩

/-- C1 (amended): the batch produces one record per input question, and a
variant entry is absent from a record exactly when that variant hit the
omission condition of the source guards: a truthy error, a chunks value
that is not a list, an empty chunks list, or a chunks list containing no
dict-shaped entry at all. A dict-shaped entry with empty content still
counts as usable. -/
theorem c1_variant_omission (env : Env) (qs : List QuestionData) (qd : QuestionData) :
    (batch_evaluate env qs).length = qs.length ∧
    ((evaluate_single_question env qd).original_metrics = none ↔
      omitsVariant (env.fetch qd.question).original = true) ∧
    ((evaluate_single_question env qd).reranked_metrics = none ↔
      omitsVariant (env.fetch qd.question).reranked = true) :=
  ⟨by simp [batch_evaluate],
   processSystem_eq_none_iff env qd.question qd.ground_truth (env.fetch qd.question).original,
   processSystem_eq_none_iff env qd.question qd.ground_truth (env.fetch qd.question).reranked⟩

/-- Counterexample to C1 as stated: the reranked retrieval returns a single
dict-shaped chunk with empty content — no error, and no dict-shaped entry
with non-empty content — yet the record still carries reranked metrics, so
the omission clause of the claim does not hold for this input. -/
theorem c1_counterexample :
    (envEmptyContent.fetch qdA.question).reranked.chunks = some [Chunk.dict ""] ∧
    hasError (envEmptyContent.fetch qdA.question).reranked = false ∧
    (chunkContents [Chunk.dict ""]).all (fun s => s = "") = true ∧
    (evaluate_single_question envEmptyContent qdA).reranked_metrics.isSome = true := by
  refine ⟨rfl, rfl, rfl, rfl⟩

/-- C8: whenever the ground-truth content-word coverage of the answer is at
least four fifths, the advanced correctness equals the maximum of four
fifths and the 0.3/0.7 blend of the F1 score and the semantic similarity,
hence is at least four fifths; otherwise it is the even blend. -/
theorem c8_advanced_correctness (o : Oracle) (answer ground_truth : String) :
    (8/10 ≤ coverageOf answer ground_truth →
      (calculate_answer_correctness o answer ground_truth).advanced_correctness =
        max (8/10)
          ((calculate_answer_correctness o answer ground_truth).f1_score * (3/10) +
            (calculate_answer_correctness o answer ground_truth).semantic_similarity * (7/10)) ∧
      8/10 ≤ (calculate_answer_correctness o answer ground_truth).advanced_correctness) ∧
    (coverageOf answer ground_truth < 8/10 →
      (calculate_answer_correctness o answer ground_truth).advanced_correctness =
        (calculate_answer_correctness o answer ground_truth).f1_score * (1/2) +
          (calculate_answer_correctness o answer ground_truth).semantic_similarity * (1/2)) := by
  unfold calculate_answer_correctness
  constructor
  · intro h
    constructor
    · simp only [ge_iff_le, h, if_true]
    · simp only [ge_iff_le, h, if_true]
      exact le_max_left _ _
  · intro h
    simp only [ge_iff_le, not_le.mpr h, if_false]

/-- Witness for C8: an answer containing all ground-truth content words
(coverage 1) lands in the floored branch and scores at least four fifths,
while an answer containing none lands in the even-blend branch. -/
theorem c8_advanced_correctness_witness :
    (8/10 ≤ coverageOf "word" "word" ∧
      (calculate_answer_correctness oHalf "word" "word").advanced_correctness =
        max (8/10)
          ((calculate_answer_correctness oHalf "word" "word").f1_score * (3/10) +
            (calculate_answer_correctness oHalf "word" "word").semantic_similarity * (7/10)) ∧
      8/10 ≤ (calculate_answer_correctness oHalf "word" "word").advanced_correctness) ∧
    (coverageOf "x" "word" < 8/10 ∧
      (calculate_answer_correctness oHalf "x" "word").advanced_correctness =
        (calculate_answer_correctness oHalf "x" "word").f1_score * (1/2) +
          (calculate_answer_correctness oHalf "x" "word").semantic_similarity * (1/2)) :=
  by
  have hcov1 : coverageOf "word" "word" = 1 := by
    norm_num [coverageOf, show keyTermsGT "word" = ["word"] from rfl,
      show pyIn "word" (pyLower "word") = true from rfl]
  have hcov2 : coverageOf "x" "word" = 0 := by
    norm_num [coverageOf, show keyTermsGT "word" = ["word"] from rfl,
      show pyIn "word" (pyLower "x") = false from rfl]
  have hge : (8 : ℚ)/10 ≤ coverageOf "word" "word" := by rw [hcov1]; norm_num
  have hlt : coverageOf "x" "word" < 8/10 := by rw [hcov2]; norm_num
  exact ⟨⟨hge, ((c8_advanced_correctness oHalf "word" "word").1 hge).1,
    ((c8_advanced_correctness oHalf "word" "word").1 hge).2⟩,
    ⟨hlt, (c8_advanced_correctness oHalf "x" "word").2 hlt⟩⟩

/-- The reranked selection of the results dataframe consists of exactly one
row per record that carries reranked metrics, in record order. -/
theorem selectSystem_reranked_eq (records : List EvaluationRecord) :
    selectSystem (create_results_dataframe records) "reranked" = rerankedRows records := by
  induction records with
  | nil => rfl
  | cons r rs ih =>
    simp only [create_results_dataframe, List.map_cons, List.flatten_cons, selectSystem,
      List.filter_append, rerankedRows, List.filterMap_cons] at *
    cases ho : r.original_metrics <;> cases hr : r.reranked_metrics <;>
      simp [rowsForRecord, ho, hr, mkRow, ih]

/-- Projecting the faithfulness column commutes with building the reranked
rows from the records that carry reranked metrics. -/
theorem rerankedRows_map_faithfulness (records : List EvaluationRecord) :
    (rerankedRows records).map (fun r => r.faithfulness) =
      (records.filterMap (fun r => r.reranked_metrics)).map (fun m => m.faithfulness) := by
  rw [rerankedRows]
  simp only [List.map_filterMap]
  congr 1
  funext x
  cases hx : x.reranked_metrics <;> simp [hx, mkRow]

/-- C3: the reranked per-metric mean is taken over exactly the rows of the
records that carry reranked metrics — stated for the faithfulness column:
the column of the reranked selection is the faithfulness of precisely those
records, and on the concrete three-record set where only two records carry
reranked metrics (values 2/5 and 3/5) the mean is 1/2, not the zero-coerced
three-row mean. -/
theorem c3_skip_missing_mean (records : List EvaluationRecord) :
    colMean ((selectSystem (create_results_dataframe records) "reranked").map
        (fun r => r.faithfulness)) =
      colMean ((records.filterMap (fun r => r.reranked_metrics)).map
        (fun m => m.faithfulness)) ∧
    colMean ((selectSystem (create_results_dataframe recs3) "reranked").map
        (fun r => r.faithfulness)) = .num (1/2) ∧
    ((2/5 : ℚ) + 3/5 + 0) / 3 ≠ 1/2 := by
  refine ⟨?_, ?_, by norm_num⟩
  · rw [selectSystem_reranked_eq, rerankedRows_map_faithfulness]
  · rw [show (selectSystem (create_results_dataframe recs3) "reranked").map
        (fun r => r.faithfulness) = [2/5, 3/5] from rfl]
    rw [show colMean [2/5, 3/5] = .num ((2/5 + 3/5) / 2) from by
      simp [colMean]]
    norm_num

/-- The paired differences of a value array with itself are all zero. -/
theorem ttestDiffs_self (a : List ℚ) : ttestDiffs a a = List.replicate a.length 0 := by
  induction a with
  | nil => rfl
  | cons x t ih =>
    simp only [ttestDiffs, List.zipWith_cons_cons, sub_self, List.length_cons,
      List.replicate_succ] at *
    exact congrArg _ ih

/-- Mean of an all-zero difference list. -/
theorem ttestMean_replicate_zero (n : ℕ) : ttestMean (List.replicate n (0 : ℚ)) = 0 := by
  simp [ttestMean]

/-- Sample variance of an all-zero difference list. -/
theorem ttestVar_replicate_zero (n : ℕ) : ttestVar (List.replicate n (0 : ℚ)) = 0 := by
  simp [ttestVar, ttestMean_replicate_zero]

/-- On identical value arrays the paired t test lands in a degenerate
branch and returns NaN for both the statistic and the p-value. -/
theorem ttest_rel_self (cont : List ℚ → List ℚ → ℚ × ℚ) (a : List ℚ) :
    ttest_rel cont a a = .ok (.nan, .nan) := by
  unfold ttest_rel
  rw [if_pos rfl, ttestDiffs_self]
  by_cases h : (List.replicate a.length (0 : ℚ)).length ≤ 1
  · rw [if_pos h]
  · rw [if_neg h, if_pos (ttestVar_replicate_zero a.length),
      if_pos (ttestMean_replicate_zero a.length)]

/-- On identical value arrays the significance entry carries NaN values and
a false significance flag. -/
theorem sigEntry_self (cont : List ℚ → List ℚ → ℚ × ℚ) (a : List ℚ) :
    sigEntry cont a a = .ok { t_stat := .nan, p_value := .nan, significant := false } := by
  rw [sigEntry, ttest_rel_self]
  rfl

/-- C5 (amended): identical per-question score vectors for the two variants
drive the paired t test into its zero-variance degenerate case, so the
reported p-value is NaN — not 1.0 — and the significance flag, defined as
the p-value comparing below 0.05, is false because every comparison against
NaN is false. -/
theorem c5_identical_vectors (cont : List ℚ → List ℚ → ℚ × ℚ) (a : List ℚ) :
    sigEntry cont a a = .ok { t_stat := .nan, p_value := .nan, significant := false } ∧
    pyLtQ PyVal.nan (1/20) = false :=
  ⟨sigEntry_self cont a, rfl⟩

/-- Counterexample to C5 as stated: on three questions whose two score
vectors are identical, the report's faithfulness significance entry holds a
NaN p-value, which is not the asserted 1.0 (the significance flag is
nevertheless false). -/
theorem c5_counterexample :
    (generate_report defaultCont rows6).map (fun rep =>
      (rep.statistical_significance.faithfulness.p_value,
       rep.statistical_significance.faithfulness.significant)) =
      .ok (PyVal.nan, false) ∧
    PyVal.nan ≠ PyVal.num 1 := by
  constructor
  · have hno : rows6 ≠ [] := by simp [rows6]
    have hf1 : (selectSystem rows6 "reranked").map (fun r => r.faithfulness) =
      [1/2, 1/2, 1/2] := rfl
    have hf2 : (selectSystem rows6 "original").map (fun r => r.faithfulness) =
      [1/2, 1/2, 1/2] := rfl
    have ha1 : (selectSystem rows6 "reranked").map (fun r => r.answer_relevancy) =
      [1/2, 1/2, 1/2] := rfl
    have ha2 : (selectSystem rows6 "original").map (fun r => r.answer_relevancy) =
      [1/2, 1/2, 1/2] := rfl
    have hp1 : (selectSystem rows6 "reranked").map (fun r => r.context_precision) =
      [1/2, 1/2, 1/2] := rfl
    have hp2 : (selectSystem rows6 "original").map (fun r => r.context_precision) =
      [1/2, 1/2, 1/2] := rfl
    have hr1 : (selectSystem rows6 "reranked").map (fun r => r.context_recall) =
      [1/2, 1/2, 1/2] := rfl
    have hr2 : (selectSystem rows6 "original").map (fun r => r.context_recall) =
      [1/2, 1/2, 1/2] := rfl
    rw [generate_report, if_neg hno]
    simp only [hf1, hf2, ha1, ha2, hp1, hp2, hr1, hr2,
      sigEntry_self defaultCont ([1/2, 1/2, 1/2] : List ℚ)]
    rfl
  · simp

/-- With equal-length value arrays the paired t test never raises. -/
theorem ttest_rel_isOk (cont : List ℚ → List ℚ → ℚ × ℚ) (a b : List ℚ)
    (h : a.length = b.length) : ∃ tp, ttest_rel cont a b = .ok tp := by
  unfold ttest_rel
  rw [if_pos h]
  by_cases h1 : (ttestDiffs a b).length ≤ 1
  · exact ⟨_, if_pos h1⟩
  · rw [if_neg h1]
    by_cases h2 : ttestVar (ttestDiffs a b) = 0
    · rw [if_pos h2]
      by_cases h3 : ttestMean (ttestDiffs a b) = 0
      · exact ⟨_, if_pos h3⟩
      · rw [if_neg h3]
        by_cases h4 : ttestMean (ttestDiffs a b) > 0
        · exact ⟨_, if_pos h4⟩
        · exact ⟨_, if_neg h4⟩
    · exact ⟨_, if_neg h2⟩

/-- With equal-length value arrays the significance entry is produced. -/
theorem sigEntry_isOk (cont : List ℚ → List ℚ → ℚ × ℚ) (a b : List ℚ)
    (h : a.length = b.length) : ∃ e, sigEntry cont a b = .ok e := by
  obtain ⟨tp, htp⟩ := ttest_rel_isOk cont a b h
  exact ⟨_, by rw [sigEntry, htp]; rfl⟩

/-- With value arrays of different lengths the significance entry raises
the unequal-length error of the t test. -/
theorem sigEntry_error_of_length_ne (cont : List ℚ → List ℚ → ℚ × ℚ) (a b : List ℚ)
    (h : ¬ a.length = b.length) : sigEntry cont a b = .error "unequal length arrays" := by
  rw [sigEntry]
  unfold ttest_rel
  rw [if_neg h]
  rfl

/-- C2 (amended): generate_report raises on the empty result set (the
column selection on the column-less empty DataFrame) and raises the
unequal-length error when the two per-system selections differ in size;
for a nonempty row set with equally many original and reranked rows it
returns a report without raising — in particular zero-variance significance
input degrades to NaN inside the report rather than raising. -/
theorem c2_report_totality (cont : List ℚ → List ℚ → ℚ × ℚ) (rows : List Row) :
    generate_report cont [] = .error "KeyError: system" ∧
    (rows ≠ [] →
      (selectSystem rows "original").length = (selectSystem rows "reranked").length →
      ∃ rep, generate_report cont rows = .ok rep) ∧
    (rows ≠ [] →
      ¬ (selectSystem rows "original").length = (selectSystem rows "reranked").length →
      generate_report cont rows = .error "unequal length arrays") := by
  refine ⟨rfl, fun hne hlen => ?_, fun hne hlen => ?_⟩
  · have hl : ∀ f g : Row → ℚ,
        ((selectSystem rows "reranked").map f).length =
          ((selectSystem rows "original").map g).length := by
      intro f g
      simp only [List.length_map]
      omega
    obtain ⟨e1, h1⟩ := sigEntry_isOk cont
      ((selectSystem rows "reranked").map (fun r => r.faithfulness))
      ((selectSystem rows "original").map (fun r => r.faithfulness)) (hl _ _)
    obtain ⟨e2, h2⟩ := sigEntry_isOk cont
      ((selectSystem rows "reranked").map (fun r => r.answer_relevancy))
      ((selectSystem rows "original").map (fun r => r.answer_relevancy)) (hl _ _)
    obtain ⟨e3, h3⟩ := sigEntry_isOk cont
      ((selectSystem rows "reranked").map (fun r => r.context_precision))
      ((selectSystem rows "original").map (fun r => r.context_precision)) (hl _ _)
    obtain ⟨e4, h4⟩ := sigEntry_isOk cont
      ((selectSystem rows "reranked").map (fun r => r.context_recall))
      ((selectSystem rows "original").map (fun r => r.context_recall)) (hl _ _)
    rw [generate_report, if_neg hne]
    simp only [h1, h2, h3, h4]
    exact ⟨_, rfl⟩
  · have hl : ¬ ((selectSystem rows "reranked").map (fun r => r.faithfulness)).length =
        ((selectSystem rows "original").map (fun r => r.faithfulness)).length := by
      simp only [List.length_map]
      omega
    rw [generate_report, if_neg hne]
    simp only [sigEntry_error_of_length_ne cont _ _ hl]
    rfl

/-- Counterexample to C2 as stated: on the fully empty result set the
report is not produced — the model of generate_report raises the KeyError
of the first column selection instead of returning zero counts and empty
tables. -/
theorem c2_counterexample :
    generate_report defaultCont [] = .error "KeyError: system" := rfl

/-- Witness for C2 at concrete inputs: a balanced two-row set produces a
report, and a one-row set with no reranked counterpart raises the
unequal-length error. -/
theorem c2_report_totality_witness :
    (∃ rep, generate_report defaultCont rowsPair = .ok rep) ∧
    generate_report defaultCont rowsOddOne = .error "unequal length arrays" :=
  ⟨(c2_report_totality defaultCont rowsPair).2.1 (by simp [rowsPair]) rfl,
   (c2_report_totality defaultCont rowsOddOne).2.2 (by simp [rowsOddOne]) (by decide)⟩

/-- Sum of a list of rationals that are pointwise at most one is at most
the list length. -/
theorem list_sum_le_length {l : List ℚ} (h : ∀ x ∈ l, x ≤ 1) :
    l.sum ≤ (l.length : ℚ) := by
  induction l with
  | nil => simp
  | cons x t ih =>
    have hx := h x (by simp)
    have ht := ih (fun y hy => h y (by simp [hy]))
    simp only [List.sum_cons, List.length_cons]
    push_cast
    linarith

/-- Faithfulness always lies in the unit interval. -/
theorem calculate_faithfulness_bounds (o : Oracle) (answer : String)
    (contexts : List String) :
    0 ≤ calculate_faithfulness o answer contexts ∧
      calculate_faithfulness o answer contexts ≤ 1 := by
  unfold calculate_faithfulness
  by_cases h : extractedClaims o answer = []
  · simp [h]
  · simp only [h, if_false]
    rw [foldl_count_eq_countP]
    have hpos : (0 : ℚ) < ((extractedClaims o answer).length : ℚ) := by
      exact_mod_cast List.length_pos.mpr h
    constructor
    · positivity
    · rw [div_le_one hpos]
      simp only [Nat.zero_add]
      exact_mod_cast List.countP_le_length _

/-- Context precision always lies in the unit interval. -/
theorem calculate_context_precision_bounds (o : Oracle) (question : String)
    (contexts : List String) (k : ℕ) :
    0 ≤ calculate_context_precision o question contexts k ∧
      calculate_context_precision o question contexts k ≤ 1 := by
  unfold calculate_context_precision
  by_cases h : relevantPositions o question contexts k = []
  · simp [h]
  · simp only [h, if_false]
    refine ⟨le_min ?_ (by norm_num), min_le_right _ _⟩
    apply div_nonneg _ (by positivity)
    apply List.sum_nonneg
    intro x hx
    obtain ⟨pos, hpos, rfl⟩ := List.mem_map.mp hx
    exact div_nonneg zero_le_one (Nat.cast_nonneg pos)

/-- Context recall always lies in the unit interval. -/
theorem calculate_context_recall_bounds (ground_truth : String)
    (contexts : List String) :
    0 ≤ calculate_context_recall ground_truth contexts ∧
      calculate_context_recall ground_truth contexts ≤ 1 := by
  unfold calculate_context_recall
  by_cases h : contexts = []
  · simp [h]
  · simp only [h, if_false]
    by_cases hf : foundTerms ground_truth contexts > 0
    · simp only [hf, if_true]
      have hle : foundTerms ground_truth contexts ≤ (keyTerms ground_truth).length :=
        List.length_filter_le _ _
      have hpos : (0 : ℚ) < ((keyTerms ground_truth).length : ℚ) := by
        exact_mod_cast lt_of_lt_of_le hf hle
      refine ⟨by positivity, ?_⟩
      rw [div_le_one hpos]
      exact_mod_cast hle
    · simp [hf]

/-- Answer relevancy lies in the unit interval whenever the embedder
cosines do. -/
theorem calculate_answer_relevancy_bounds (o : Oracle) (question answer : String)
    (hcos : ∀ x y : String, 0 ≤ o.cos x y ∧ o.cos x y ≤ 1) :
    0 ≤ calculate_answer_relevancy o question answer ∧
      calculate_answer_relevancy o question answer ≤ 1 := by
  unfold calculate_answer_relevancy
  by_cases h : generatedQuestions o answer = []
  · simp only [h, if_true]
    norm_num
  · simp only [h, if_false]
    have hlen : (0 : ℚ) < ((generatedQuestions o answer).length : ℚ) := by
      exact_mod_cast List.length_pos.mpr h
    constructor
    · apply div_nonneg _ (le_of_lt hlen)
      apply List.sum_nonneg
      intro x hx
      simp only [List.mem_map] at hx
      obtain ⟨g, hg, rfl⟩ := hx
      exact (hcos question g).1
    · rw [div_le_one hlen]
      have hs := list_sum_le_length
        (l := (generatedQuestions o answer).map (fun g => o.cos question g))
        (by
          intro x hx
          simp only [List.mem_map] at hx
          obtain ⟨g, hg, rfl⟩ := hx
          exact (hcos question g).2)
      simpa using hs

/-- Bounds for the ratio guards of the fact F1. -/
theorem ratio_bounds (tp fp : ℕ) :
    0 ≤ (if tp + fp > 0 then (tp : ℚ) / ((tp + fp : ℕ) : ℚ) else 0) ∧
      (if tp + fp > 0 then (tp : ℚ) / ((tp + fp : ℕ) : ℚ) else 0) ≤ 1 := by
  by_cases h : tp + fp > 0
  · simp only [h, if_true]
    have hpos : (0 : ℚ) < ((tp + fp : ℕ) : ℚ) := by exact_mod_cast h
    refine ⟨by positivity, ?_⟩
    rw [div_le_one hpos]
    exact_mod_cast Nat.le_add_right tp fp
  · simp [h]

/-- Bounds for the harmonic blend of two unit-interval values. -/
theorem f1_formula_bounds (p r : ℚ) (hp : 0 ≤ p ∧ p ≤ 1) (hr : 0 ≤ r ∧ r ≤ 1) :
    0 ≤ (if p + r > 0 then 2 * p * r / (p + r) else 0) ∧
      (if p + r > 0 then 2 * p * r / (p + r) else 0) ≤ 1 := by
  by_cases h : p + r > 0
  · simp only [h, if_true]
    refine ⟨div_nonneg (by nlinarith [hp.1, hr.1]) (le_of_lt h), ?_⟩
    rw [div_le_one h]
    nlinarith [hp.1, hp.2, hr.1, hr.2]
  · simp [h]

/-- The fact F1 always lies in the unit interval. -/
theorem f1FromFacts_bounds (af tf : List String) :
    0 ≤ f1FromFacts af tf ∧ f1FromFacts af tf ≤ 1 := by
  unfold f1FromFacts
  by_cases h1 : af = [] ∧ tf = []
  · simp [h1]
  · simp only [h1, if_false]
    by_cases h2 : af = [] ∨ tf = []
    · simp [h1, h2]
    · simp only [h2, if_false]
      exact f1_formula_bounds _ _ (ratio_bounds _ _) (ratio_bounds _ _)

/-- Both correctness blends lie in the unit interval whenever the embedder
cosines do. -/
theorem calculate_answer_correctness_bounds (o : Oracle) (answer ground_truth : String)
    (hcos : ∀ x y : String, 0 ≤ o.cos x y ∧ o.cos x y ≤ 1) :
    (0 ≤ (calculate_answer_correctness o answer ground_truth).standard_correctness ∧
      (calculate_answer_correctness o answer ground_truth).standard_correctness ≤ 1) ∧
    (0 ≤ (calculate_answer_correctness o answer ground_truth).advanced_correctness ∧
      (calculate_answer_correctness o answer ground_truth).advanced_correctness ≤ 1) := by
  obtain ⟨hf0, hf1⟩ := f1FromFacts_bounds (extractFacts o answer) (extractFacts o ground_truth)
  obtain ⟨hs0, hs1⟩ := hcos answer ground_truth
  unfold calculate_answer_correctness
  dsimp only
  refine ⟨⟨by linarith, by linarith⟩, ?_⟩
  by_cases h : coverageOf answer ground_truth ≥ 8/10
  · simp only [h, if_true]
    constructor
    · exact le_trans (by norm_num) (le_max_left _ _)
    · exact max_le (by norm_num) (by linarith)
  · simp only [h, if_false]
    exact ⟨by linarith, by linarith⟩

/-- C6 (amended): faithfulness, context precision and context recall always
lie in the unit interval; answer relevancy and the two correctness variants
lie in the unit interval provided the embedder cosine similarities lie in
the unit interval. The claim as stated fails because the mathematical
cosine range is the interval from minus one to one, so a negative cosine
drives relevancy and the correctness blends below zero. -/
theorem c6_metric_ranges (o : Oracle) (question answer ground_truth : String)
    (contexts : List String) (k : ℕ)
    (hcos : ∀ x y : String, 0 ≤ o.cos x y ∧ o.cos x y ≤ 1) :
    (0 ≤ calculate_faithfulness o answer contexts ∧
      calculate_faithfulness o answer contexts ≤ 1) ∧
    (0 ≤ calculate_context_precision o question contexts k ∧
      calculate_context_precision o question contexts k ≤ 1) ∧
    (0 ≤ calculate_context_recall ground_truth contexts ∧
      calculate_context_recall ground_truth contexts ≤ 1) ∧
    (0 ≤ calculate_answer_relevancy o question answer ∧
      calculate_answer_relevancy o question answer ≤ 1) ∧
    (0 ≤ (calculate_answer_correctness o answer ground_truth).standard_correctness ∧
      (calculate_answer_correctness o answer ground_truth).standard_correctness ≤ 1) ∧
    (0 ≤ (calculate_answer_correctness o answer ground_truth).advanced_correctness ∧
      (calculate_answer_correctness o answer ground_truth).advanced_correctness ≤ 1) :=
  ⟨calculate_faithfulness_bounds o answer contexts,
   calculate_context_precision_bounds o question contexts k,
   calculate_context_recall_bounds ground_truth contexts,
   calculate_answer_relevancy_bounds o question answer hcos,
   (calculate_answer_correctness_bounds o answer ground_truth hcos).1,
   (calculate_answer_correctness_bounds o answer ground_truth hcos).2⟩

/-- Witness for C6 with a concrete oracle whose cosine is one half. -/
theorem c6_metric_ranges_witness :
    (0 ≤ calculate_faithfulness oHalf "a" ["c"] ∧
      calculate_faithfulness oHalf "a" ["c"] ≤ 1) ∧
    (0 ≤ calculate_context_precision oHalf "q" ["c"] 5 ∧
      calculate_context_precision oHalf "q" ["c"] 5 ≤ 1) ∧
    (0 ≤ calculate_context_recall "g" ["c"] ∧
      calculate_context_recall "g" ["c"] ≤ 1) ∧
    (0 ≤ calculate_answer_relevancy oHalf "q" "a" ∧
      calculate_answer_relevancy oHalf "q" "a" ≤ 1) ∧
    (0 ≤ (calculate_answer_correctness oHalf "a" "g").standard_correctness ∧
      (calculate_answer_correctness oHalf "a" "g").standard_correctness ≤ 1) ∧
    (0 ≤ (calculate_answer_correctness oHalf "a" "g").advanced_correctness ∧
      (calculate_answer_correctness oHalf "a" "g").advanced_correctness ≤ 1) :=
  c6_metric_ranges oHalf "q" "a" "g" ["c"] 5
    (fun x y => by constructor <;> norm_num [oHalf])

/-- Counterexample to C6 as stated: with a judge that reconstructs one
question and an embedder whose cosine is minus one (a value inside the
mathematical cosine range), answer relevancy evaluates to minus one and so
leaves the claimed unit interval. -/
theorem c6_counterexample :
    ¬ (0 ≤ calculate_answer_relevancy oNeg "q" "a") := by
  have hq : generatedQuestions oNeg "a" = ["Q"] := rfl
  rw [calculate_answer_relevancy]
  rw [hq]
  norm_num [oNeg]
